import Mathlib

/-!
Shallow embedding of the DirectX12Intro bootstrap sample
(src/DirectX12Intro/DirectX12Intro/main.cpp and Helpers.h).

The repository is a Windows/DirectX 12 bootstrap: a command-line
argument parser mutating three globals, a `ThrowIfFailed` helper, a
window-class registration and window-creation pair, and a DXGI adapter
selector.  Each C++ function is translated here into a pure Lean
function; the process-global mutable state becomes an explicit state
record, and interactions with the OS (argument array reads, `LocalFree`,
`RegisterClassExW`, `AdjustWindowRect`, `CreateWindowExW`, DXGI calls)
are made observable through instrumentation fields and call traces so
that the safety properties (out-of-bounds reads, use after free,
missing return statements) can be stated.
-/

set_option autoImplicit false

namespace DX12Intro

/-- State of `ParseCommandLineArguments`: the three globals it mutates
(`g_ClientWidth`, `g_ClientHeight`, `g_UseWarp`, main.cpp lines 51-55)
together with instrumentation of the memory behaviour of the loop:
`oobRead` records that some access `argv[k]` had `k ≥ argc`;
`freeCount` counts executions of `::LocalFree(argv)` (line 118);
`iterCount` counts loop iterations; `afterFree` records that some
access to `argv` happened while `freeCount > 0`, i.e. after the array
had already been freed. -/
structure PState where
  g_ClientWidth : Nat
  g_ClientHeight : Nat
  g_UseWarp : Bool
  oobRead : Bool
  freeCount : Nat
  iterCount : Nat
  afterFree : Bool
  deriving Repr, DecidableEq

/-- Reading `argv[i]`.  An in-bounds read returns the token; an
out-of-bounds read (`i ≥ argc`) returns an unspecified junk token
(modelled as `""`) and sets `oobRead`.  Every read performed while the
array has already been freed sets `afterFree`. -/
def readArg (argv : List String) (i : Nat) (st : PState) : String × PState :=
  let st := { st with afterFree := st.afterFree || decide (0 < st.freeCount) }
  match argv.get? i with
  | some s => (s, st)
  | none => ("", { st with oobRead := true })

/-- Model of `::wcstol(s, nullptr, 10)`: skip leading whitespace, read an
optional sign and then a maximal run of decimal digits (yielding `0`
when there is none), clamping to the range of a 32-bit `long`
(`long` is 32 bits on Windows). -/
def wcstol (s : String) : Int :=
  let cs := s.data.dropWhile (fun c => c.isWhitespace)
  let signed : Int × List Char :=
    match cs with
    | '-' :: rest => (-1, rest)
    | '+' :: rest => (1, rest)
    | _ => (1, cs)
  let digits := signed.2.takeWhile (fun c => c.isDigit)
  let magnitude : Nat := digits.foldl (fun acc c => 10 * acc + (c.toNat - '0'.toNat)) 0
  let v : Int := signed.1 * magnitude
  max (-(2 ^ 31)) (min (2 ^ 31 - 1) v)

/-- Conversion of the `long` returned by `wcstol` to the `uint32_t`
globals `g_ClientWidth` / `g_ClientHeight`: reduction modulo `2^32`. -/
def toUInt32 (v : Int) : Nat := (v % (2 ^ 32)).toNat

/-- Third `if` of the loop body (main.cpp lines 112-115): when the
current token is `-warp` or `--warp`, set `g_UseWarp = true`.  Returns
the index unchanged (this branch consumes no extra token). -/
def parseWarpIf (argv : List String) (i : Nat) (st : PState) : Nat × PState :=
  let p := readArg argv i st
  if p.1 = "-warp" ∨ p.1 = "--warp" then
    (i, { p.2 with g_UseWarp := true })
  else
    (i, p.2)

/-- Second `if` of the loop body (main.cpp lines 108-111): when the
current token is `-h` or `--height`, consume the next token via
`argv[++i]` and store its `wcstol` value in `g_ClientHeight`; then fall
through to the `-warp` check. -/
def parseHeightIf (argv : List String) (i : Nat) (st : PState) : Nat × PState :=
  let p := readArg argv i st
  if p.1 = "-h" ∨ p.1 = "--height" then
    let q := readArg argv (i + 1) p.2
    parseWarpIf argv (i + 1) { q.2 with g_ClientHeight := toUInt32 (wcstol q.1) }
  else
    parseWarpIf argv i p.2

/-- Loop body of `ParseCommandLineArguments` (main.cpp lines 104-115):
three independent `if` statements (not `else if`).  When the current
token is `-w` or `--width`, consume the next token via `argv[++i]` and
store its `wcstol` value in `g_ClientWidth`; the following `if`s then
re-read `argv[i]` at the incremented index.  Returns the index as left
by the body (before the loop's own `++i`). -/
def parseBody (argv : List String) (i : Nat) (st : PState) : Nat × PState :=
  let p := readArg argv i st
  if p.1 = "-w" ∨ p.1 = "--width" then
    let q := readArg argv (i + 1) p.2
    parseHeightIf argv (i + 1) { q.2 with g_ClientWidth := toUInt32 (wcstol q.1) }
  else
    parseHeightIf argv i p.2

/-- One iteration of the `for` loop (main.cpp lines 102-119): the
iteration counter ticks, the three `if`s run on the current index, and
`::LocalFree(argv)` executes at the end of the body (line 118) — inside
the loop, hence once per iteration.  Returns the next index (the body's
index plus the loop's own `++i`) and the new state. -/
def parseStep (argv : List String) (i : Nat) (st : PState) : Nat × PState :=
  let r := parseBody argv i { st with iterCount := st.iterCount + 1 }
  (r.1 + 1, { r.2 with freeCount := r.2.freeCount + 1 })

/-- The `for (size_t i = 0; i < argc; ++i)` loop of
`ParseCommandLineArguments` (main.cpp lines 102-119).  The recursion is
driven by a fuel argument so that the function reduces by computation;
`parseLoop_fuel_saturates` below shows that any fuel covering the
remaining indices (in particular the `argv.length` used by
`ParseCommandLineArguments`) yields the loop's true result, since the
index strictly increases every iteration. -/
def parseLoop (argv : List String) : Nat → Nat → PState → PState
  | 0, _, st => st
  | fuel + 1, i, st =>
    if i < argv.length then
      parseLoop argv fuel (parseStep argv i st).1 (parseStep argv i st).2
    else
      st

/-- Initial values of the globals (main.cpp lines 51-55): width 1280,
height 720, `g_UseWarp = false`; instrumentation fields start clean. -/
def initState : PState :=
  { g_ClientWidth := 1280, g_ClientHeight := 720, g_UseWarp := false,
    oobRead := false, freeCount := 0, iterCount := 0, afterFree := false }

/-- Function `ParseCommandLineArguments` (main.cpp lines 96-120), as a function
of the token list produced by `::CommandLineToArgvW`. -/
def ParseCommandLineArguments (argv : List String) : PState :=
  parseLoop argv argv.length 0 initState

/-- The six flag spellings the parser recognizes (main.cpp lines
104, 108, 112); every other token falls through all three `if`s. -/
def recognizedToken (t : String) : Prop :=
  t = "-w" ∨ t = "--width" ∨ t = "-h" ∨ t = "--height" ∨ t = "-warp" ∨ t = "--warp"

instance recognizedToken.decPred : DecidablePred recognizedToken := fun t => by
  unfold recognizedToken
  infer_instance

/-- The generic exception `std::exception()` thrown by `ThrowIfFailed`
(Helpers.h line 14): a single constructor with no fields, so the signal
carries no error code and no context message. -/
inductive GenericFailure : Type
  | mk : GenericFailure
  deriving Repr, DecidableEq

/-- The Windows `FAILED(hr)` macro: an `HRESULT` (a 32-bit signed
integer, modelled as `Int`) is a failure code exactly when it is
negative. -/
def FAILED (hr : Int) : Bool := decide (hr < 0)

/-- Helper `ThrowIfFailed` (Helpers.h lines 10-16): throw `std::exception()`
when `FAILED(hr)`, otherwise return normally. -/
def ThrowIfFailed (hr : Int) : Except GenericFailure Unit :=
  if FAILED hr then Except.error GenericFailure.mk else Except.ok ()

/-- The Windows `RECT` structure: signed left/top/right/bottom. -/
structure RECT where
  left : Int
  top : Int
  right : Int
  bottom : Int
  deriving Repr, DecidableEq

/-- The window-chrome extents that `::AdjustWindowRect` adds around a
client rectangle for a given window style (here `WS_OVERLAPPEDWINDOW`,
no menu — main.cpp line 169).  The extents depend on the OS theme and
are therefore parameters of the model; they are non-negative because
the adjustment only grows the rectangle. -/
structure Chrome where
  left : Nat
  top : Nat
  right : Nat
  bottom : Nat
  deriving Repr, DecidableEq

/-- Model of the OS call `::AdjustWindowRect(&rect, style, menu)`:
grow the rectangle by the chrome extents on each side, so that the
original rectangle becomes the client area of the grown one. -/
def AdjustWindowRect (r : RECT) (c : Chrome) : RECT :=
  { left := r.left - c.left, top := r.top - c.top,
    right := r.right + c.right, bottom := r.bottom + c.bottom }

/-- Conversion `static_cast<LONG>(n)` for a `uint32_t` value `n`: two's-complement
reinterpretation of the low 32 bits (`LONG` is a 32-bit signed
integer). -/
def toLONG (n : Nat) : Int :=
  if n % 2 ^ 32 < 2 ^ 31 then ((n % 2 ^ 32 : Nat) : Int)
  else ((n % 2 ^ 32 : Nat) : Int) - 2 ^ 32

/-- Everything `CreateWindow` computes: the adjusted rectangle, its
width/height, the centered-and-clamped position, the handle obtained
from `::CreateWindowExW`, and the value the function returns to its
caller — `none` meaning control reached the closing brace of the
non-void function without any `return` statement. -/
structure CreateWindowResult where
  windowRect : RECT
  windowWidth : Int
  windowHeight : Int
  windowX : Int
  windowY : Int
  hWnd : Int
  returned : Option Int
  deriving Repr, DecidableEq

/-- Function `CreateWindow` (main.cpp lines 161-196).  OS inputs are parameters:
`screenWidth`/`screenHeight` from `::GetSystemMetrics(SM_CXSCREEN /
SM_CYSCREEN)`, `chrome` for the extents `::AdjustWindowRect` adds, and
`osHWnd` for the handle `::CreateWindowExW` produces.  The body starts
from the client rectangle `{0, 0, (LONG)width, (LONG)height}` (line
167), adjusts it (line 169), recomputes width/height (lines 172-173),
centers with `std::max<int>(0, (screen - window) / 2)` using C's
truncating integer division (lines 176-177), creates the window (line
179) — and ends with no `return` statement, so `returned = none`. -/
def CreateWindow (screenWidth screenHeight : Int) (chrome : Chrome) (osHWnd : Int)
    (width height : Nat) : CreateWindowResult :=
  let windowRect : RECT :=
    { left := 0, top := 0, right := toLONG width, bottom := toLONG height }
  let windowRect := AdjustWindowRect windowRect chrome
  let windowWidth := windowRect.right - windowRect.left
  let windowHeight := windowRect.bottom - windowRect.top
  let windowX := max 0 ((screenWidth - windowWidth).tdiv 2)
  let windowY := max 0 ((screenHeight - windowHeight).tdiv 2)
  { windowRect := windowRect, windowWidth := windowWidth, windowHeight := windowHeight,
    windowX := windowX, windowY := windowY, hWnd := osHWnd, returned := none }

/-- The DXGI operations `GetAdapter` can invoke.
`enumHardwareAdapter` stands for physical-adapter enumeration
(`IDXGIFactory::EnumAdapters1`); the source's hardware branch (main.cpp
lines 217-220) is empty and never performs it. -/
inductive AdapterCall : Type
  | createFactory
  | enumWarpAdapter
  | castAdapter
  | enumHardwareAdapter
  deriving Repr, DecidableEq

/-- The `HRESULT`s the environment returns for the DXGI calls
`GetAdapter` makes: `CreateDXGIFactory2`, `EnumWarpAdapter`, and the
`ComPtr::As` interface cast. -/
structure DxgiEnv where
  createFactoryHR : Int
  enumWarpHR : Int
  castHR : Int
  deriving Repr, DecidableEq

/-- Function `GetAdapter` (main.cpp lines 200-222): create the factory (checked
by `ThrowIfFailed`), then on the `useWarp` path enumerate the WARP
adapter and cast it to `IDXGIAdapter4` (both checked); the `else`
branch is empty.  The result pairs the trace of DXGI calls made with
either the generic failure raised by `ThrowIfFailed` or, on normal
completion, the value returned to the caller — `none` because the
function has no `return` statement on any path. -/
def GetAdapter (env : DxgiEnv) (useWarp : Bool) :
    List AdapterCall × Except GenericFailure (Option Nat) :=
  match ThrowIfFailed env.createFactoryHR with
  | Except.error e => ([AdapterCall.createFactory], Except.error e)
  | Except.ok _ =>
    if useWarp then
      match ThrowIfFailed env.enumWarpHR with
      | Except.error e =>
        ([AdapterCall.createFactory, AdapterCall.enumWarpAdapter], Except.error e)
      | Except.ok _ =>
        match ThrowIfFailed env.castHR with
        | Except.error e =>
          ([AdapterCall.createFactory, AdapterCall.enumWarpAdapter,
            AdapterCall.castAdapter], Except.error e)
        | Except.ok _ =>
          ([AdapterCall.createFactory, AdapterCall.enumWarpAdapter,
            AdapterCall.castAdapter], Except.ok none)
    else
      ([AdapterCall.createFactory], Except.ok none)

/-- Process-level state of `RegisterWindowClass`: whether the
function-local `static ATOM atom` (main.cpp line 156) has been
initialized, its stored value, how many times `::RegisterClassExW` has
executed, and whether every `assert(atom > 0)` (line 157) so far
passed. -/
structure RegState where
  initialized : Bool
  atom : Nat
  registerCalls : Nat
  assertPassed : Bool
  deriving Repr, DecidableEq

/-- Function `RegisterWindowClass` (main.cpp lines 138-158).  The window-class
descriptor is function-local; the process-visible effects are the
static-local initializer `static ATOM atom = ::RegisterClassExW(...)`,
which runs the OS registration only when the static is not yet
initialized, and the `assert(atom > 0)` checked on every call against
the stored atom.  `osAtom` is the ATOM the OS registration call would
return. -/
def RegisterWindowClass (osAtom : Nat) (s : RegState) : RegState :=
  let s :=
    if s.initialized then s
    else { s with initialized := true, atom := osAtom,
                  registerCalls := s.registerCalls + 1 }
  { s with assertPassed := s.assertPassed && decide (0 < s.atom) }

/-! ### Supporting lemmas about the parser loop -/

theorem parseWarpIf_fst (argv : List String) (i : Nat) (st : PState) :
    (parseWarpIf argv i st).1 = i := by
  unfold parseWarpIf
  dsimp only
  split <;> rfl

theorem parseHeightIf_fst (argv : List String) (i : Nat) (st : PState) :
    i ≤ (parseHeightIf argv i st).1 := by
  unfold parseHeightIf
  dsimp only
  split <;> simp [parseWarpIf_fst]

theorem parseBody_fst (argv : List String) (i : Nat) (st : PState) :
    i ≤ (parseBody argv i st).1 := by
  unfold parseBody
  dsimp only
  split
  · exact le_trans (Nat.le_succ i) (parseHeightIf_fst argv (i + 1) _)
  · exact parseHeightIf_fst argv i _

theorem parseStep_fst (argv : List String) (i : Nat) (st : PState) :
    i < (parseStep argv i st).1 := by
  unfold parseStep
  dsimp only
  exact Nat.lt_succ_of_le (parseBody_fst argv i _)

theorem parseLoop_zero (argv : List String) (i : Nat) (st : PState) :
    parseLoop argv 0 i st = st := rfl

theorem parseLoop_succ_pos (argv : List String) (fuel i : Nat) (st : PState)
    (hi : i < argv.length) :
    parseLoop argv (fuel + 1) i st =
      parseLoop argv fuel (parseStep argv i st).1 (parseStep argv i st).2 := by
  simp only [parseLoop]
  rw [if_pos hi]

theorem parseLoop_succ_neg (argv : List String) (fuel i : Nat) (st : PState)
    (hi : ¬ i < argv.length) :
    parseLoop argv (fuel + 1) i st = st := by
  simp only [parseLoop]
  rw [if_neg hi]

theorem parseLoop_fuel_saturates (argv : List String) :
    ∀ fuel k i st, argv.length ≤ i + fuel →
      parseLoop argv (fuel + k) i st = parseLoop argv fuel i st := by
  intro fuel
  induction fuel with
  | zero =>
    intro k i st hle
    cases k with
    | zero => rfl
    | succ k =>
      rw [Nat.zero_add, parseLoop_zero]
      exact parseLoop_succ_neg argv k i st (by omega)
  | succ fuel ih =>
    intro k i st hle
    have hshift : fuel + 1 + k = (fuel + k) + 1 := by omega
    by_cases hi : i < argv.length
    · rw [hshift, parseLoop_succ_pos argv (fuel + k) i st hi,
        parseLoop_succ_pos argv fuel i st hi]
      have hb := parseStep_fst argv i st
      exact ih k _ _ (by omega)
    · rw [hshift, parseLoop_succ_neg argv (fuel + k) i st hi,
        parseLoop_succ_neg argv fuel i st hi]

theorem readArg_fst (argv : List String) (i : Nat) (st : PState) (t : String)
    (h : argv.get? i = some t) : (readArg argv i st).1 = t := by
  unfold readArg
  dsimp only
  rw [h]

theorem readArg_fields (argv : List String) (i : Nat) (st : PState) :
    (readArg argv i st).2.g_ClientWidth = st.g_ClientWidth ∧
    (readArg argv i st).2.g_ClientHeight = st.g_ClientHeight ∧
    (readArg argv i st).2.g_UseWarp = st.g_UseWarp ∧
    (readArg argv i st).2.freeCount = st.freeCount ∧
    (readArg argv i st).2.iterCount = st.iterCount := by
  unfold readArg
  dsimp only
  split <;> exact ⟨rfl, rfl, rfl, rfl, rfl⟩

theorem readArg_afterFree_mono (argv : List String) (i : Nat) (st : PState)
    (h : st.afterFree = true) : (readArg argv i st).2.afterFree = true := by
  unfold readArg
  dsimp only
  split <;> simp [h]

theorem readArg_afterFree_set (argv : List String) (i : Nat) (st : PState)
    (h : 0 < st.freeCount) : (readArg argv i st).2.afterFree = true := by
  unfold readArg
  dsimp only
  split <;> simp [h]

theorem parseWarpIf_counts (argv : List String) (i : Nat) (st : PState) :
    (parseWarpIf argv i st).2.freeCount = st.freeCount ∧
    (parseWarpIf argv i st).2.iterCount = st.iterCount := by
  unfold parseWarpIf
  dsimp only
  have h := readArg_fields argv i st
  split <;> exact ⟨h.2.2.2.1, h.2.2.2.2⟩

theorem parseHeightIf_counts (argv : List String) (i : Nat) (st : PState) :
    (parseHeightIf argv i st).2.freeCount = st.freeCount ∧
    (parseHeightIf argv i st).2.iterCount = st.iterCount := by
  unfold parseHeightIf
  dsimp only
  have h := readArg_fields argv i st
  split
  · have h2 := readArg_fields argv (i + 1) (readArg argv i st).2
    have h3 := parseWarpIf_counts argv (i + 1)
      { (readArg argv (i + 1) (readArg argv i st).2).2 with
        g_ClientHeight := toUInt32 (wcstol (readArg argv (i + 1) (readArg argv i st).2).1) }
    refine ⟨?_, ?_⟩
    · rw [h3.1]
      exact h2.2.2.2.1.trans h.2.2.2.1
    · rw [h3.2]
      exact h2.2.2.2.2.trans h.2.2.2.2
  · have h3 := parseWarpIf_counts argv i (readArg argv i st).2
    exact ⟨h3.1.trans h.2.2.2.1, h3.2.trans h.2.2.2.2⟩

theorem parseBody_counts (argv : List String) (i : Nat) (st : PState) :
    (parseBody argv i st).2.freeCount = st.freeCount ∧
    (parseBody argv i st).2.iterCount = st.iterCount := by
  unfold parseBody
  dsimp only
  have h := readArg_fields argv i st
  split
  · have h2 := readArg_fields argv (i + 1) (readArg argv i st).2
    have h3 := parseHeightIf_counts argv (i + 1)
      { (readArg argv (i + 1) (readArg argv i st).2).2 with
        g_ClientWidth := toUInt32 (wcstol (readArg argv (i + 1) (readArg argv i st).2).1) }
    refine ⟨?_, ?_⟩
    · rw [h3.1]
      exact h2.2.2.2.1.trans h.2.2.2.1
    · rw [h3.2]
      exact h2.2.2.2.2.trans h.2.2.2.2
  · have h3 := parseHeightIf_counts argv i (readArg argv i st).2
    exact ⟨h3.1.trans h.2.2.2.1, h3.2.trans h.2.2.2.2⟩

theorem parseWarpIf_afterFree_mono (argv : List String) (i : Nat) (st : PState)
    (h : st.afterFree = true) : (parseWarpIf argv i st).2.afterFree = true := by
  unfold parseWarpIf
  dsimp only
  have h1 := readArg_afterFree_mono argv i st h
  split <;> exact h1

theorem parseHeightIf_afterFree_mono (argv : List String) (i : Nat) (st : PState)
    (h : st.afterFree = true) : (parseHeightIf argv i st).2.afterFree = true := by
  unfold parseHeightIf
  dsimp only
  have h1 := readArg_afterFree_mono argv i st h
  split
  · exact parseWarpIf_afterFree_mono argv (i + 1) _
      (readArg_afterFree_mono argv (i + 1) _ h1)
  · exact parseWarpIf_afterFree_mono argv i _ h1

theorem parseBody_afterFree_mono (argv : List String) (i : Nat) (st : PState)
    (h : st.afterFree = true) : (parseBody argv i st).2.afterFree = true := by
  unfold parseBody
  dsimp only
  have h1 := readArg_afterFree_mono argv i st h
  split
  · exact parseHeightIf_afterFree_mono argv (i + 1) _
      (readArg_afterFree_mono argv (i + 1) _ h1)
  · exact parseHeightIf_afterFree_mono argv i _ h1

theorem parseBody_afterFree_set (argv : List String) (i : Nat) (st : PState)
    (h : 0 < st.freeCount) : (parseBody argv i st).2.afterFree = true := by
  unfold parseBody
  dsimp only
  have h1 := readArg_afterFree_set argv i st h
  split
  · exact parseHeightIf_afterFree_mono argv (i + 1) _
      (readArg_afterFree_mono argv (i + 1) _ h1)
  · exact parseHeightIf_afterFree_mono argv i _ h1

theorem parseStep_counts (argv : List String) (i : Nat) (st : PState) :
    (parseStep argv i st).2.freeCount = st.freeCount + 1 ∧
    (parseStep argv i st).2.iterCount = st.iterCount + 1 := by
  unfold parseStep
  dsimp only
  have hc := parseBody_counts argv i { st with iterCount := st.iterCount + 1 }
  exact ⟨by rw [hc.1], hc.2⟩

theorem parseStep_afterFree_mono (argv : List String) (i : Nat) (st : PState)
    (h : st.afterFree = true) : (parseStep argv i st).2.afterFree = true := by
  unfold parseStep
  dsimp only
  exact parseBody_afterFree_mono argv i _ h

theorem parseStep_afterFree_set (argv : List String) (i : Nat) (st : PState)
    (h : 0 < st.freeCount) : (parseStep argv i st).2.afterFree = true := by
  unfold parseStep
  dsimp only
  exact parseBody_afterFree_set argv i _ h

theorem parseLoop_afterFree_mono (argv : List String) :
    ∀ fuel i st, st.afterFree = true → (parseLoop argv fuel i st).afterFree = true := by
  intro fuel
  induction fuel with
  | zero => intro i st h; exact h
  | succ fuel ih =>
    intro i st h
    by_cases hi : i < argv.length
    · rw [parseLoop_succ_pos argv fuel i st hi]
      exact ih _ _ (parseStep_afterFree_mono argv i st h)
    · rw [parseLoop_succ_neg argv fuel i st hi]
      exact h

theorem parseLoop_afterFree_set (argv : List String) :
    ∀ fuel i st, 0 < st.freeCount → st.iterCount < (parseLoop argv fuel i st).iterCount →
      (parseLoop argv fuel i st).afterFree = true := by
  intro fuel
  induction fuel with
  | zero =>
    intro i st _ hlt
    rw [parseLoop_zero] at hlt
    omega
  | succ fuel ih =>
    intro i st hfree hlt
    by_cases hi : i < argv.length
    · rw [parseLoop_succ_pos argv fuel i st hi]
      exact parseLoop_afterFree_mono argv fuel _ _ (parseStep_afterFree_set argv i st hfree)
    · rw [parseLoop_succ_neg argv fuel i st hi] at hlt
      omega

theorem parseLoop_second_iteration_after_free (argv : List String) :
    ∀ fuel i st, st.iterCount + 2 ≤ (parseLoop argv fuel i st).iterCount →
      (parseLoop argv fuel i st).afterFree = true := by
  intro fuel
  induction fuel with
  | zero =>
    intro i st hlt
    rw [parseLoop_zero] at hlt
    omega
  | succ fuel ih =>
    intro i st hlt
    by_cases hi : i < argv.length
    · rw [parseLoop_succ_pos argv fuel i st hi] at hlt ⊢
      have hc := parseStep_counts argv i st
      apply parseLoop_afterFree_set argv fuel
      · omega
      · omega
    · rw [parseLoop_succ_neg argv fuel i st hi] at hlt
      omega

theorem parseLoop_freeCount_eq_iterCount (argv : List String) :
    ∀ fuel i st, (parseLoop argv fuel i st).freeCount + st.iterCount =
      (parseLoop argv fuel i st).iterCount + st.freeCount := by
  intro fuel
  induction fuel with
  | zero =>
    intro i st
    rw [parseLoop_zero]
    omega
  | succ fuel ih =>
    intro i st
    by_cases hi : i < argv.length
    · rw [parseLoop_succ_pos argv fuel i st hi]
      have hc := parseStep_counts argv i st
      have hr := ih (parseStep argv i st).1 (parseStep argv i st).2
      omega
    · rw [parseLoop_succ_neg argv fuel i st hi]
      omega

theorem parseBody_unrecognized (argv : List String) (i : Nat) (st : PState) (t : String)
    (hget : argv.get? i = some t) (hrec : ¬ recognizedToken t) :
    (parseBody argv i st).1 = i ∧
    (parseBody argv i st).2.g_ClientWidth = st.g_ClientWidth ∧
    (parseBody argv i st).2.g_ClientHeight = st.g_ClientHeight ∧
    (parseBody argv i st).2.g_UseWarp = st.g_UseWarp := by
  simp only [recognizedToken, not_or] at hrec
  obtain ⟨hw1, hw2, hh1, hh2, hp1, hp2⟩ := hrec
  have f1 := readArg_fields argv i st
  have e1 := readArg_fst argv i st t hget
  unfold parseBody
  dsimp only
  rw [e1, if_neg (by exact fun h => h.elim hw1 hw2)]
  have f2 := readArg_fields argv i (readArg argv i st).2
  have e2 := readArg_fst argv i (readArg argv i st).2 t hget
  unfold parseHeightIf
  dsimp only
  rw [e2, if_neg (by exact fun h => h.elim hh1 hh2)]
  have f3 := readArg_fields argv i (readArg argv i (readArg argv i st).2).2
  have e3 := readArg_fst argv i (readArg argv i (readArg argv i st).2).2 t hget
  unfold parseWarpIf
  dsimp only
  rw [e3, if_neg (by exact fun h => h.elim hp1 hp2)]
  refine ⟨rfl, ?_, ?_, ?_⟩
  · exact f3.1.trans (f2.1.trans f1.1)
  · exact f3.2.1.trans (f2.2.1.trans f1.2.1)
  · exact f3.2.2.1.trans (f2.2.2.1.trans f1.2.2.1)

theorem parseStep_unrecognized (argv : List String) (i : Nat) (st : PState) (t : String)
    (hget : argv.get? i = some t) (hrec : ¬ recognizedToken t) :
    (parseStep argv i st).2.g_ClientWidth = st.g_ClientWidth ∧
    (parseStep argv i st).2.g_ClientHeight = st.g_ClientHeight ∧
    (parseStep argv i st).2.g_UseWarp = st.g_UseWarp := by
  unfold parseStep
  dsimp only
  have hb := parseBody_unrecognized argv i { st with iterCount := st.iterCount + 1 } t hget hrec
  exact ⟨hb.2.1, hb.2.2.1, hb.2.2.2⟩

theorem parseLoop_unrecognized (argv : List String)
    (hrec : ∀ t ∈ argv, ¬ recognizedToken t) :
    ∀ fuel i st,
      (parseLoop argv fuel i st).g_ClientWidth = st.g_ClientWidth ∧
      (parseLoop argv fuel i st).g_ClientHeight = st.g_ClientHeight ∧
      (parseLoop argv fuel i st).g_UseWarp = st.g_UseWarp := by
  intro fuel
  induction fuel with
  | zero => intro i st; exact ⟨rfl, rfl, rfl⟩
  | succ fuel ih =>
    intro i st
    by_cases hi : i < argv.length
    · rw [parseLoop_succ_pos argv fuel i st hi]
      obtain ⟨t, hget⟩ : ∃ t, argv.get? i = some t :=
        ⟨argv.get ⟨i, hi⟩, List.get?_eq_get hi⟩
      have hmem : t ∈ argv := List.get?_mem hget
      have hb := parseStep_unrecognized argv i st t hget (hrec t hmem)
      have hr := ih (parseStep argv i st).1 (parseStep argv i st).2
      refine ⟨?_, ?_, ?_⟩
      · exact hr.1.trans hb.1
      · exact hr.2.1.trans hb.2.1
      · exact hr.2.2.trans hb.2.2
    · rw [parseLoop_succ_neg argv fuel i st hi]
      exact ⟨rfl, rfl, rfl⟩

/-! ### Supporting lemmas about integer arithmetic helpers -/

theorem tdiv_two_nonpos (a : Int) (h : a ≤ 0) : a.tdiv 2 ≤ 0 := by
  have h1 : -((-a).tdiv 2) = a.tdiv 2 := by
    rw [Int.neg_tdiv, Int.neg_neg]
  have h2 : 0 ≤ (-a).tdiv 2 := Int.tdiv_nonneg (by omega) (by omega)
  omega

theorem toLONG_eq_of_lt (n : Nat) (h : n < 2 ^ 31) : toLONG n = (n : Int) := by
  unfold toLONG
  have h32 : n % 2 ^ 32 = n := Nat.mod_eq_of_lt (by omega)
  rw [h32, if_pos h]

/-! ### Claim theorems -/

/-- C1: parsing `-w 800 -h 600 -warp` yields `g_ClientWidth = 800`,
`g_ClientHeight = 600`, `g_UseWarp = true`; parsing an empty argument
list leaves the documented defaults (1280, 720, `false`); and an
argument list consisting only of unrecognized tokens leaves all three
values at their defaults. -/
theorem parseCommandLine_flags_and_defaults :
    ((ParseCommandLineArguments ["-w", "800", "-h", "600", "-warp"]).g_ClientWidth = 800 ∧
     (ParseCommandLineArguments ["-w", "800", "-h", "600", "-warp"]).g_ClientHeight = 600 ∧
     (ParseCommandLineArguments ["-w", "800", "-h", "600", "-warp"]).g_UseWarp = true) ∧
    ((ParseCommandLineArguments []).g_ClientWidth = 1280 ∧
     (ParseCommandLineArguments []).g_ClientHeight = 720 ∧
     (ParseCommandLineArguments []).g_UseWarp = false) ∧
    (∀ argv, (∀ t ∈ argv, ¬ recognizedToken t) →
      (ParseCommandLineArguments argv).g_ClientWidth = 1280 ∧
      (ParseCommandLineArguments argv).g_ClientHeight = 720 ∧
      (ParseCommandLineArguments argv).g_UseWarp = false) := by
  refine ⟨by decide, by decide, ?_⟩
  intro argv h
  exact parseLoop_unrecognized argv h argv.length 0 initState

/-- Witness for C1 at the concrete unrecognized argument list
`["-x", "foo"]`. -/
theorem parseCommandLine_flags_and_defaults_witness :
    (ParseCommandLineArguments ["-x", "foo"]).g_ClientWidth = 1280 ∧
    (ParseCommandLineArguments ["-x", "foo"]).g_ClientHeight = 720 ∧
    (ParseCommandLineArguments ["-x", "foo"]).g_UseWarp = false :=
  parseCommandLine_flags_and_defaults.2.2 ["-x", "foo"] (by decide)

/-- C2: `::LocalFree(argv)` executes inside the loop body on every
iteration — the number of frees equals the number of iterations, not
one — and consequently whenever the loop runs a second iteration, the
array is accessed after it has already been freed. -/
theorem localFree_freed_inside_loop :
    ∀ argv : List String,
      (ParseCommandLineArguments argv).freeCount = (ParseCommandLineArguments argv).iterCount ∧
      (2 ≤ (ParseCommandLineArguments argv).iterCount →
        (ParseCommandLineArguments argv).afterFree = true) := by
  intro argv
  constructor
  · have h := parseLoop_freeCount_eq_iterCount argv argv.length 0 initState
    have h0 : initState.iterCount = 0 := rfl
    have h1 : initState.freeCount = 0 := rfl
    simp only [ParseCommandLineArguments]
    omega
  · intro h2
    simp only [ParseCommandLineArguments] at h2 ⊢
    apply parseLoop_second_iteration_after_free argv argv.length 0 initState
    have h0 : initState.iterCount = 0 := rfl
    omega

/-- Witness for C2 at the two-token list `["a", "b"]`, which runs two
iterations: two frees happen and the second iteration reads the freed
array. -/
theorem localFree_freed_inside_loop_witness :
    (ParseCommandLineArguments ["a", "b"]).freeCount =
      (ParseCommandLineArguments ["a", "b"]).iterCount ∧
    (ParseCommandLineArguments ["a", "b"]).afterFree = true :=
  ⟨(localFree_freed_inside_loop ["a", "b"]).1,
   (localFree_freed_inside_loop ["a", "b"]).2 (by decide)⟩

/-- C3 (refuted on the code): the claim says the parser never accesses
an index `≥ argc` when the last token is a value-taking flag with no
following value.  The code does: on `["-w"]` (and on
`["-w", "800", "--height"]`) the `argv[++i]` read goes past the end of
the array, while a fully-formed argument list stays in bounds. -/
theorem trailing_value_flag_reads_past_end :
    (ParseCommandLineArguments ["-w"]).oobRead = true ∧
    (ParseCommandLineArguments ["-w", "800", "--height"]).oobRead = true ∧
    (ParseCommandLineArguments ["-w", "800", "-h", "600", "-warp"]).oobRead = false := by
  decide

/-- C4: `ThrowIfFailed` raises a failure exactly when `FAILED hr`
holds; the raised signal is the same payload-free generic value for
every failing `hr`; and on success codes it returns normally with no
effect. -/
theorem throwIfFailed_generic_signal :
    (∀ hr : Int, (∃ e, ThrowIfFailed hr = Except.error e) ↔ FAILED hr = true) ∧
    (∀ hr hr' : Int, FAILED hr = true → FAILED hr' = true →
      ThrowIfFailed hr = ThrowIfFailed hr') ∧
    (∀ e e' : GenericFailure, e = e') ∧
    (∀ hr : Int, FAILED hr = false → ThrowIfFailed hr = Except.ok ()) := by
  refine ⟨?_, ?_, ?_, ?_⟩
  · intro hr
    constructor
    · rintro ⟨e, he⟩
      by_contra hf
      rw [Bool.not_eq_true] at hf
      unfold ThrowIfFailed at he
      rw [hf] at he
      simp at he
    · intro hf
      refine ⟨GenericFailure.mk, ?_⟩
      unfold ThrowIfFailed
      rw [hf]
      rfl
  · intro hr hr' hf hf'
    unfold ThrowIfFailed
    rw [hf, hf']
  · intro e e'
    cases e
    cases e'
    rfl
  · intro hr hf
    unfold ThrowIfFailed
    rw [hf]
    rfl

/-- Witness for C4 at success code `0` and failure code `-1`. -/
theorem throwIfFailed_generic_signal_witness :
    ThrowIfFailed 0 = Except.ok () ∧ ThrowIfFailed (-1) = ThrowIfFailed (-2) :=
  ⟨throwIfFailed_generic_signal.2.2.2 0 (by decide),
   throwIfFailed_generic_signal.2.1 (-1) (-2) (by decide) (by decide)⟩

/-- C5: `CreateWindow` returns no value on any path (control falls off
the end of the non-void function), and `GetAdapter` likewise either
aborts through `ThrowIfFailed` or completes normally without producing
an adapter, on the WARP path and the hardware path alike. -/
theorem createWindow_getAdapter_missing_return :
    (∀ (screenWidth screenHeight : Int) (chrome : Chrome) (osHWnd : Int) (width height : Nat),
      (CreateWindow screenWidth screenHeight chrome osHWnd width height).returned = none) ∧
    (∀ (env : DxgiEnv) (useWarp : Bool),
      (GetAdapter env useWarp).2 = Except.error GenericFailure.mk ∨
      (GetAdapter env useWarp).2 = Except.ok none) := by
  constructor
  · intro screenWidth screenHeight chrome osHWnd width height
    rfl
  · intro env useWarp
    unfold GetAdapter
    cases ThrowIfFailed env.createFactoryHR with
    | error e =>
      cases e
      exact Or.inl rfl
    | ok u =>
      cases useWarp with
      | false => exact Or.inr rfl
      | true =>
        cases ThrowIfFailed env.enumWarpHR with
        | error e =>
          cases e
          exact Or.inl rfl
        | ok u2 =>
          cases ThrowIfFailed env.castHR with
          | error e =>
            cases e
            exact Or.inl rfl
          | ok u3 => exact Or.inr rfl

/-- C6: the top-left window position is computed as
`max(0, (screen - window) / 2)` in each component, hence never
negative, and whenever the adjusted window is at least as wide (tall)
as the screen the coordinate clamps to exactly zero. -/
theorem createWindow_position_clamped :
    ∀ (screenWidth screenHeight : Int) (chrome : Chrome) (osHWnd : Int) (width height : Nat),
      (CreateWindow screenWidth screenHeight chrome osHWnd width height).windowX =
        max 0 ((screenWidth -
          (CreateWindow screenWidth screenHeight chrome osHWnd width height).windowWidth).tdiv 2) ∧
      (CreateWindow screenWidth screenHeight chrome osHWnd width height).windowY =
        max 0 ((screenHeight -
          (CreateWindow screenWidth screenHeight chrome osHWnd width height).windowHeight).tdiv 2) ∧
      0 ≤ (CreateWindow screenWidth screenHeight chrome osHWnd width height).windowX ∧
      0 ≤ (CreateWindow screenWidth screenHeight chrome osHWnd width height).windowY ∧
      (screenWidth ≤ (CreateWindow screenWidth screenHeight chrome osHWnd width height).windowWidth →
        (CreateWindow screenWidth screenHeight chrome osHWnd width height).windowX = 0) ∧
      (screenHeight ≤ (CreateWindow screenWidth screenHeight chrome osHWnd width height).windowHeight →
        (CreateWindow screenWidth screenHeight chrome osHWnd width height).windowY = 0) := by
  intro screenWidth screenHeight chrome osHWnd width height
  unfold CreateWindow AdjustWindowRect
  dsimp only
  refine ⟨rfl, rfl, le_max_left _ _, le_max_left _ _, ?_, ?_⟩
  · intro hle
    exact max_eq_left (tdiv_two_nonpos _ (by omega))
  · intro hle
    exact max_eq_left (tdiv_two_nonpos _ (by omega))

/-- Witness for C6: a 640x480 screen with a window whose adjusted size
is 1296x759 — both coordinates clamp to zero. -/
theorem createWindow_position_clamped_witness :
    (CreateWindow 640 480 ⟨8, 31, 8, 8⟩ 1 1280 720).windowX = 0 ∧
    (CreateWindow 640 480 ⟨8, 31, 8, 8⟩ 1 1280 720).windowY = 0 :=
  ⟨(createWindow_position_clamped 640 480 ⟨8, 31, 8, 8⟩ 1 1280 720).2.2.2.2.1 (by decide),
   (createWindow_position_clamped 640 480 ⟨8, 31, 8, 8⟩ 1 1280 720).2.2.2.2.2 (by decide)⟩

/-- C7: for positive client sizes representable as positive `LONG`
values, the adjusted window rectangle's dimensions equal the requested
client width/height plus exactly the chrome extents added by
`AdjustWindowRect` — i.e. the client area equals the request
exactly. -/
theorem createWindow_client_area_exact :
    ∀ (screenWidth screenHeight : Int) (chrome : Chrome) (osHWnd : Int) (width height : Nat),
      0 < width → width < 2 ^ 31 → 0 < height → height < 2 ^ 31 →
      (CreateWindow screenWidth screenHeight chrome osHWnd width height).windowWidth =
        (width : Int) + ((chrome.left : Int) + (chrome.right : Int)) ∧
      (CreateWindow screenWidth screenHeight chrome osHWnd width height).windowHeight =
        (height : Int) + ((chrome.top : Int) + (chrome.bottom : Int)) := by
  intro screenWidth screenHeight chrome osHWnd width height _ hw31 _ hh31
  unfold CreateWindow AdjustWindowRect
  dsimp only
  rw [toLONG_eq_of_lt width hw31, toLONG_eq_of_lt height hh31]
  constructor <;> ring

/-- Witness for C7 at the defaults 1280x720 with chrome extents
(8, 31, 8, 8). -/
theorem createWindow_client_area_exact_witness :
    (CreateWindow 1920 1080 ⟨8, 31, 8, 8⟩ 1 1280 720).windowWidth = 1296 ∧
    (CreateWindow 1920 1080 ⟨8, 31, 8, 8⟩ 1 1280 720).windowHeight = 759 := by
  have h := createWindow_client_area_exact 1920 1080 ⟨8, 31, 8, 8⟩ 1 1280 720
    (by decide) (by decide) (by decide) (by decide)
  exact ⟨h.1.trans (by decide), h.2.trans (by decide)⟩

/-- C8: on the `useWarp = true` path, `GetAdapter` never performs
physical-adapter enumeration (its call trace contains zero occurrences
of the hardware enumeration), and whenever factory creation succeeds it
does resolve the WARP adapter. -/
theorem getAdapter_warp_no_hardware_enum :
    ∀ env : DxgiEnv,
      (GetAdapter env true).1.count AdapterCall.enumHardwareAdapter = 0 ∧
      (FAILED env.createFactoryHR = false →
        AdapterCall.enumWarpAdapter ∈ (GetAdapter env true).1) := by
  intro env
  constructor
  · unfold GetAdapter
    cases ThrowIfFailed env.createFactoryHR with
    | error e => rfl
    | ok u =>
      cases ThrowIfFailed env.enumWarpHR with
      | error e => rfl
      | ok u2 =>
        cases ThrowIfFailed env.castHR with
        | error e => rfl
        | ok u3 => rfl
  · intro hf
    unfold GetAdapter ThrowIfFailed
    rw [hf]
    cases hw : FAILED env.enumWarpHR with
    | true => simp
    | false =>
      cases hc : FAILED env.castHR with
      | true => simp
      | false => simp

/-- Witness for C8 with an environment whose factory creation
succeeds. -/
theorem getAdapter_warp_no_hardware_enum_witness :
    AdapterCall.enumWarpAdapter ∈ (GetAdapter ⟨0, 0, 0⟩ true).1 :=
  (getAdapter_warp_no_hardware_enum ⟨0, 0, 0⟩).2 (by decide)

/-- C9: because the three flag checks are independent `if`s (not
`else if`), after `-w` consumes the following token via `argv[++i]`,
the later checks apply to the consumed value token: parsing
`["-w", "-warp"]` stores `wcstol("-warp") = 0` into `g_ClientWidth`
and also sets `g_UseWarp = true`, all within a single loop
iteration. -/
theorem chained_ifs_consume_value_token :
    toUInt32 (wcstol "-warp") = 0 ∧
    (ParseCommandLineArguments ["-w", "-warp"]).g_ClientWidth = 0 ∧
    (ParseCommandLineArguments ["-w", "-warp"]).g_UseWarp = true ∧
    (ParseCommandLineArguments ["-w", "-warp"]).iterCount = 1 := by
  decide

/-- C10: `RegisterWindowClass` is idempotent at the process level: the
static-local initializer runs the OS registration only when the static
is not yet initialized, every later call leaves the state exactly as
the first call left it (re-asserting the stored atom), and calling the
function twice equals calling it once. -/
theorem registerWindowClass_static_idempotent :
    ∀ (a b : Nat) (s : RegState),
      RegisterWindowClass b (RegisterWindowClass a s) = RegisterWindowClass a s ∧
      (RegisterWindowClass a s).registerCalls =
        (if s.initialized then s.registerCalls else s.registerCalls + 1) ∧
      (RegisterWindowClass a s).initialized = true := by
  intro a b s
  unfold RegisterWindowClass
  by_cases h : s.initialized = true <;>
    simp [h, Bool.and_assoc]

end DX12Intro
